import Mathlib

/-!
# Native-escape enqueue of the CUDA adapter, and the event-info usage errors

A shallow embedding of `urEnqueueNativeCommandExp`
(`source/adapters/cuda/enqueue_native.cpp`) as an executable function over an
explicit thread state, a log of the external calls it makes, and the content
of the out-parameter `*phEvent`.

The collaborators the function calls but whose code is in other files
(`ScopedStream`, `makeNative`, `start`, `record`, `mapErrorUR`, the destructors)
are fields of an `Adapter` record, so every theorem holds for all of them. The
callback `pfnNativeEnqueue` is an argument, as in the source.

C++ control flow is kept as it is: a call either yields a value or throws; a
thrown value is a `ur_result_t`, a `CUresult`, or a value of some other type;
objects with a destructor are destroyed in reverse order of construction when
their scope is left, normally or by an exception.
-/

namespace UnifiedRuntime

/-! ## Handles and codes -/

abbrev ur_queue_handle_t := Nat
abbrev ur_device_handle_t := Nat
abbrev ur_event_handle_t := Nat
abbrev CUstream := Nat
abbrev CUcontext := Nat
abbrev CUresult := Nat

/-- Modelled from the spec: the declaration of `ur_result_t` (ur_api.h) is not
among the sources. "Unified result codes form a closed enumeration including at
least: success; invalid-null-handle; invalid-enumeration; invalid-value; a
generic native/adapter failure." Every further enumerator is `UR_RESULT_ERROR_CODE n`. -/
inductive ur_result_t where
  | UR_RESULT_SUCCESS
  | UR_RESULT_ERROR_INVALID_NULL_HANDLE
  | UR_RESULT_ERROR_INVALID_ENUMERATION
  | UR_RESULT_ERROR_INVALID_VALUE
  | UR_RESULT_ERROR_CODE (n : Nat)
  deriving DecidableEq, Repr

open ur_result_t

/-- The command kinds named in the sources; every other enumerator is `UR_COMMAND_CODE n`. -/
inductive ur_command_t where
  | UR_COMMAND_ENQUEUE_NATIVE_EXP
  | UR_COMMAND_MEM_BUFFER_WRITE
  | UR_COMMAND_CODE (n : Nat)
  deriving DecidableEq, Repr

open ur_command_t

/-- A value thrown by a C++ `throw`: the two types the function has a handler
for, and every other type (`std::bad_alloc`, whatever a callback throws). -/
inductive Thrown where
  | ur (Err : ur_result_t)
  | cu (CuErr : CUresult)
  | foreign (tag : Nat)
  deriving DecidableEq, Repr

/-- How an external call ends: with a value or with a thrown value. -/
inductive Outcome (α : Type) where
  | ok (a : α)
  | thrown (x : Thrown)
  deriving DecidableEq, Repr

/-- The state the collaborators act on: the native context current on the
calling thread, and the rest of the driver state. -/
structure World where
  current : CUcontext
  driver : Nat
  deriving DecidableEq, Repr

/-- One step of `urEnqueueNativeCommandExp` that is visible from outside, with
its arguments and how it ended. Steps are logged in the order they happen. -/
inductive Effect where
  | bindContext (Device : ur_device_handle_t) (failure : Option Thrown)
  | selectStream (hQueue : ur_queue_handle_t) (NumEventsInWaitList : Nat)
      (phEventWaitList : Option (List ur_event_handle_t)) (r : Outcome CUstream)
  | makeNative (kind : ur_command_t) (hQueue : ur_queue_handle_t) (stream : CUstream)
      (r : Outcome ur_event_handle_t)
  | start (event : ur_event_handle_t) (r : Outcome ur_result_t)
  | callback (hQueue : ur_queue_handle_t) (data : Nat) (r : Outcome Unit)
  | record (event : ur_event_handle_t) (r : Outcome ur_result_t)
  | store (event : ur_event_handle_t)
  | delete (event : ur_event_handle_t)
  | releaseStream (stream : CUstream)
  | restoreContext (saved : CUcontext)
  deriving DecidableEq, Repr

/-- The type of `pfnNativeEnqueue`: opaque caller code taking the queue and the
data pointer; it may change the world and may throw anything. -/
abbrev ur_exp_enqueue_native_command_function_t :=
  ur_queue_handle_t → Nat → World → Outcome Unit × World

/-- The code of the adapter that `urEnqueueNativeCommandExp` calls and that
lives in other files. -/
structure Adapter where
  /-- The member `hQueue->getDevice()`. -/
  getDevice : ur_queue_handle_t → ur_device_handle_t
  /-- The native context of a device. -/
  getNativeContext : ur_device_handle_t → CUcontext
  /-- Whether making the device context current fails, and with what. -/
  bindFailure : ur_device_handle_t → World → Option Thrown
  /-- The constructor of `ScopedStream`; its value is what `getStream()` returns. -/
  ScopedStream : ur_queue_handle_t → Nat → Option (List ur_event_handle_t) →
    World → Outcome CUstream × World
  /-- The destructor of `ScopedStream`. -/
  ScopedStreamDtor : CUstream → World → World
  /-- The factory `ur_event_handle_t_::makeNative`. -/
  makeNative : ur_command_t → ur_queue_handle_t → CUstream →
    World → Outcome ur_event_handle_t × World
  /-- The member `ur_event_handle_t_::start`. -/
  start : ur_event_handle_t → World → Outcome ur_result_t × World
  /-- The member `ur_event_handle_t_::record`. -/
  record : ur_event_handle_t → World → Outcome ur_result_t × World
  /-- The destructor of `ur_event_handle_t_`. -/
  eventDtor : ur_event_handle_t → World → World
  /-- The Error Translator. -/
  mapErrorUR : CUresult → ur_result_t

/-! ## Execution of the `try` block -/

/-- The state of one call: the world, the log, the content of `*phEvent`
(`none` when `phEvent` is null) and the local `RetImplEvent`. The location
`*phEvent` and the local are written by the function only: the collaborators
and the callback act on the world. -/
structure Frame where
  world : World
  trace : List Effect
  phEvent : Option ur_event_handle_t
  RetImplEvent : Option ur_event_handle_t
  deriving DecidableEq, Repr

/-- A statement: it turns a frame into an outcome and a frame. What was done
before a throw stays done. The outcome `none` is undefined behaviour (a call
through an empty `unique_ptr`). -/
def Exec (α : Type) := Frame → Option (Outcome α) × Frame

def Exec.pure {α : Type} (a : α) : Exec α := fun f => (some (Outcome.ok a), f)

def Exec.bind {α β : Type} (m : Exec α) (k : α → Exec β) : Exec β := fun f =>
  match m f with
  | (some (Outcome.ok a), f1) => k a f1
  | (some (Outcome.thrown x), f1) => (some (Outcome.thrown x), f1)
  | (none, f1) => (none, f1)

/-- An external call: run it on the world and log it with its outcome. -/
def Exec.call {α : Type} (run : World → Outcome α × World) (log : Outcome α → Effect) :
    Exec α := fun f =>
  match run f.world with
  | (r, w) => (some r, { f with world := w, trace := f.trace ++ [log r] })

/-- A scope with a destructor: the destructor runs when the body is left, by
its end or by a throw. -/
def Exec.scope {α : Type} (dtor : Frame → Frame) (body : Exec α) : Exec α := fun f =>
  match body f with
  | (some r, f1) => (some r, dtor f1)
  | (none, f1) => (none, f1)

/-- A C++ `throw`. -/
def Exec.throw {α : Type} (x : Thrown) : Exec α := fun f => (some (Outcome.thrown x), f)

/-- Saved state of a `ScopedContext` object. -/
structure ScopedContext where
  saved : CUcontext
  deriving DecidableEq, Repr

/-- Modelled from the spec: the constructor of `ScopedContext` (context.hpp is not
among the sources). "makes that device's native context current on the calling
thread for the remainder of the enclosing scope"; "if binding the context
fails, the surrounding operation aborts before any native work is submitted". -/
def ScopedContext.ctor (A : Adapter) (Device : ur_device_handle_t) : Exec ScopedContext := fun f =>
  match A.bindFailure Device f.world with
  | some x =>
    (some (Outcome.thrown x),
     { f with trace := f.trace ++ [Effect.bindContext Device (some x)] })
  | none =>
    (some (Outcome.ok { saved := f.world.current }),
     { f with world := { f.world with current := A.getNativeContext Device },
              trace := f.trace ++ [Effect.bindContext Device none] })

/-- Modelled from the spec: the destructor of `ScopedContext`. "unconditionally
restoring the thread's previous current context when the scope exits —
including when the scope exits via a thrown error". -/
def ScopedContext.dtor (g : ScopedContext) (f : Frame) : Frame :=
  { f with world := { f.world with current := g.saved },
           trace := f.trace ++ [Effect.restoreContext g.saved] }

/-- The constructor of `ScopedStream`. -/
def ScopedStream.ctor (A : Adapter) (hQueue : ur_queue_handle_t) (NumEventsInWaitList : Nat)
    (phEventWaitList : Option (List ur_event_handle_t)) : Exec CUstream :=
  Exec.call (A.ScopedStream hQueue NumEventsInWaitList phEventWaitList)
    (Effect.selectStream hQueue NumEventsInWaitList phEventWaitList)

/-- The destructor of `ScopedStream`. -/
def ScopedStream.dtor (A : Adapter) (s : CUstream) (f : Frame) : Frame :=
  { f with world := A.ScopedStreamDtor s f.world,
           trace := f.trace ++ [Effect.releaseStream s] }

/-- The destructor of `std::unique_ptr<ur_event_handle_t_>`: deletes the event
it still owns, if any. -/
def RetImplEvent.dtor (A : Adapter) (f : Frame) : Frame :=
  match f.RetImplEvent with
  | none => f
  | some e =>
    { f with world := A.eventDtor e f.world,
             trace := f.trace ++ [Effect.delete e],
             RetImplEvent := none }

/-- Assignment to the local `RetImplEvent`. -/
def RetImplEvent.assign (p : Option ur_event_handle_t) : Exec Unit := fun f =>
  (some (Outcome.ok ()), { f with RetImplEvent := p })

/-- The call `RetImplEvent->m()`: undefined when the pointer is empty. -/
def RetImplEvent.arrow {α : Type} (m : ur_event_handle_t → Exec α) : Exec α := fun f =>
  match f.RetImplEvent with
  | some e => m e f
  | none => (none, f)

/-- The call `ur_event_handle_t_::makeNative(kind, hQueue, stream)`. -/
def makeNative (A : Adapter) (kind : ur_command_t) (hQueue : ur_queue_handle_t)
    (stream : CUstream) : Exec ur_event_handle_t :=
  Exec.call (A.makeNative kind hQueue stream) (Effect.makeNative kind hQueue stream)

/-- The member call `start()` on an event. -/
def start (A : Adapter) (e : ur_event_handle_t) : Exec ur_result_t :=
  Exec.call (A.start e) (Effect.start e)

/-- The member call `record()` on an event. -/
def record (A : Adapter) (e : ur_event_handle_t) : Exec ur_result_t :=
  Exec.call (A.record e) (Effect.record e)

/-- Modelled from the spec: the macro `UR_CHECK_ERROR` (common.hpp is not among
the sources) on a `ur_result_t`: a failing result is "fatal to the enclosing
operation", and "exceptions/signals raised in unified-result terms propagate
unchanged". -/
def UR_CHECK_ERROR (Result : ur_result_t) : Exec Unit :=
  if Result = UR_RESULT_SUCCESS then Exec.pure () else Exec.throw (Thrown.ur Result)

/-- The call `pfnNativeEnqueue(hQueue, data)`. -/
def callNativeEnqueue (pfnNativeEnqueue : ur_exp_enqueue_native_command_function_t)
    (hQueue : ur_queue_handle_t) (data : Nat) : Exec Unit :=
  Exec.call (pfnNativeEnqueue hQueue data) (Effect.callback hQueue data)

/-- The statement `*phEvent = RetImplEvent.release();`. -/
def storeRelease : Exec Unit := fun f =>
  match f.RetImplEvent with
  | some e =>
    (some (Outcome.ok ()), { f with phEvent := some e, RetImplEvent := none,
                                    trace := f.trace ++ [Effect.store e] })
  | none => (none, f)

/-- The body of the `try` block of `urEnqueueNativeCommandExp`, lines 28-45. -/
def tryBlock (A : Adapter) (hQueue : ur_queue_handle_t)
    (pfnNativeEnqueue : ur_exp_enqueue_native_command_function_t) (data : Nat)
    (NumEventsInWaitList : Nat) (phEventWaitList : Option (List ur_event_handle_t))
    (phEvent : Bool) : Exec Unit :=
  Exec.bind (ScopedContext.ctor A (A.getDevice hQueue)) fun ActiveContext =>
  Exec.scope (ScopedContext.dtor ActiveContext) <|
  Exec.bind (ScopedStream.ctor A hQueue NumEventsInWaitList phEventWaitList) fun ActiveStream =>
  Exec.scope (ScopedStream.dtor A ActiveStream) <|
  Exec.bind (RetImplEvent.assign none) fun _ =>
  Exec.scope (RetImplEvent.dtor A) <|
  Exec.bind
    (if phEvent then
      Exec.bind (makeNative A UR_COMMAND_ENQUEUE_NATIVE_EXP hQueue ActiveStream) fun p =>
      Exec.bind (RetImplEvent.assign (some p)) fun _ =>
      Exec.bind (RetImplEvent.arrow (start A)) UR_CHECK_ERROR
    else Exec.pure ()) fun _ =>
  Exec.bind (callNativeEnqueue pfnNativeEnqueue hQueue data) fun _ =>
  if phEvent then
    Exec.bind (RetImplEvent.arrow (record A)) fun r =>
    Exec.bind (UR_CHECK_ERROR r) fun _ =>
    storeRelease
  else Exec.pure ()

/-- How a call of the public function ends: it returns a result code, an
exception leaves it, or its behaviour is undefined. -/
inductive Completion where
  | returned (r : ur_result_t)
  | propagated (x : Thrown)
  | undefined
  deriving DecidableEq, Repr

/-- The two handlers, lines 47-51: a thrown `ur_result_t` is returned as it
is, a thrown `CUresult` is returned through `mapErrorUR`; a thrown value of
any other type meets no handler and leaves the function. -/
def handlers (A : Adapter) : Thrown → Completion
  | Thrown.ur Err => Completion.returned Err
  | Thrown.cu CuErr => Completion.returned (A.mapErrorUR CuErr)
  | Thrown.foreign t => Completion.propagated (Thrown.foreign t)

/-- The end of the function after the `try` block, lines 47-52: the handlers
when something was thrown, `return UR_RESULT_SUCCESS` when nothing was. -/
def catchBoundary (A : Adapter) : Option (Outcome Unit) → Completion
  | some (Outcome.thrown x) => handlers A x
  | some (Outcome.ok ()) => Completion.returned UR_RESULT_SUCCESS
  | none => Completion.undefined

/-- What a call of `urEnqueueNativeCommandExp` leaves behind. -/
structure Run where
  result : Completion
  phEvent : Option ur_event_handle_t
  trace : List Effect
  world : World
  deriving DecidableEq, Repr

/-- The function `urEnqueueNativeCommandExp`. `phEvent` is `none` for a null
pointer and `some old` for a pointer to a location holding `old`; the
properties argument is not looked at. -/
def urEnqueueNativeCommandExp (A : Adapter) (hQueue : ur_queue_handle_t)
    (pfnNativeEnqueue : ur_exp_enqueue_native_command_function_t) (data : Nat)
    (_properties : Option Nat)
    (NumEventsInWaitList : Nat) (phEventWaitList : Option (List ur_event_handle_t))
    (phEvent : Option ur_event_handle_t) (w : World) : Run :=
  match tryBlock A hQueue pfnNativeEnqueue data NumEventsInWaitList phEventWaitList
      phEvent.isSome { world := w, trace := [], phEvent := phEvent, RetImplEvent := none } with
  | (r, f) =>
    { result := catchBoundary A r, phEvent := f.phEvent, trace := f.trace, world := f.world }

/-! ## Reading the log -/

/-- What the statement `UR_CHECK_ERROR(call)` raises, given how the call ended. -/
def checkedFailure : Outcome ur_result_t → Option Thrown
  | Outcome.thrown x => some x
  | Outcome.ok r => if r = UR_RESULT_SUCCESS then none else some (Thrown.ur r)

/-- What an external call raises by itself. -/
def Outcome.failure {α : Type} : Outcome α → Option Thrown
  | Outcome.thrown x => some x
  | Outcome.ok _ => none

/-- The value a logged step raised, if it failed. -/
def Effect.raised : Effect → Option Thrown
  | Effect.bindContext _ failure => failure
  | Effect.selectStream _ _ _ r => r.failure
  | Effect.makeNative _ _ _ r => r.failure
  | Effect.start _ r => checkedFailure r
  | Effect.callback _ _ r => r.failure
  | Effect.record _ r => checkedFailure r
  | _ => none

/-! ## The paths through the function -/

/-- The paths of `urEnqueueNativeCommandExp`, one per step that can fail and
one for the path on which none does, with the run each path leaves behind. -/
inductive Path (A : Adapter) (hQueue : ur_queue_handle_t)
    (pfn : ur_exp_enqueue_native_command_function_t) (data : Nat)
    (n : Nat) (wl : Option (List ur_event_handle_t)) (w : World) :
    Option ur_event_handle_t → Run → Prop where
  | bindFails (phEvent : Option ur_event_handle_t) (x : Thrown)
      (hb : A.bindFailure (A.getDevice hQueue) w = some x) :
      Path A hQueue pfn data n wl w phEvent
        { result := handlers A x, phEvent := phEvent,
          trace := [Effect.bindContext (A.getDevice hQueue) (some x)],
          world := w }
  | streamFails (phEvent : Option ur_event_handle_t) (x : Thrown) (w2 : World)
      (hb : A.bindFailure (A.getDevice hQueue) w = none)
      (hs : A.ScopedStream hQueue n wl
              { w with current := A.getNativeContext (A.getDevice hQueue) }
            = (Outcome.thrown x, w2)) :
      Path A hQueue pfn data n wl w phEvent
        { result := handlers A x, phEvent := phEvent,
          trace := [Effect.bindContext (A.getDevice hQueue) none,
                    Effect.selectStream hQueue n wl (Outcome.thrown x),
                    Effect.restoreContext w.current],
          world := { w2 with current := w.current } }
  | makeNativeFails (old : ur_event_handle_t) (s : CUstream) (x : Thrown) (w2 w3 : World)
      (hb : A.bindFailure (A.getDevice hQueue) w = none)
      (hs : A.ScopedStream hQueue n wl
              { w with current := A.getNativeContext (A.getDevice hQueue) }
            = (Outcome.ok s, w2))
      (hm : A.makeNative UR_COMMAND_ENQUEUE_NATIVE_EXP hQueue s w2 = (Outcome.thrown x, w3)) :
      Path A hQueue pfn data n wl w (some old)
        { result := handlers A x, phEvent := some old,
          trace := [Effect.bindContext (A.getDevice hQueue) none,
                    Effect.selectStream hQueue n wl (Outcome.ok s),
                    Effect.makeNative UR_COMMAND_ENQUEUE_NATIVE_EXP hQueue s (Outcome.thrown x),
                    Effect.releaseStream s,
                    Effect.restoreContext w.current],
          world := { A.ScopedStreamDtor s w3 with current := w.current } }
  | startFails (old : ur_event_handle_t) (s : CUstream) (e : ur_event_handle_t)
      (r : Outcome ur_result_t) (x : Thrown) (w2 w3 w4 : World)
      (hb : A.bindFailure (A.getDevice hQueue) w = none)
      (hs : A.ScopedStream hQueue n wl
              { w with current := A.getNativeContext (A.getDevice hQueue) }
            = (Outcome.ok s, w2))
      (hm : A.makeNative UR_COMMAND_ENQUEUE_NATIVE_EXP hQueue s w2 = (Outcome.ok e, w3))
      (ht : A.start e w3 = (r, w4))
      (hx : checkedFailure r = some x) :
      Path A hQueue pfn data n wl w (some old)
        { result := handlers A x, phEvent := some old,
          trace := [Effect.bindContext (A.getDevice hQueue) none,
                    Effect.selectStream hQueue n wl (Outcome.ok s),
                    Effect.makeNative UR_COMMAND_ENQUEUE_NATIVE_EXP hQueue s (Outcome.ok e),
                    Effect.start e r,
                    Effect.delete e,
                    Effect.releaseStream s,
                    Effect.restoreContext w.current],
          world := { A.ScopedStreamDtor s (A.eventDtor e w4) with current := w.current } }
  | callbackFails (old : ur_event_handle_t) (s : CUstream) (e : ur_event_handle_t)
      (x : Thrown) (w2 w3 w4 w5 : World)
      (hb : A.bindFailure (A.getDevice hQueue) w = none)
      (hs : A.ScopedStream hQueue n wl
              { w with current := A.getNativeContext (A.getDevice hQueue) }
            = (Outcome.ok s, w2))
      (hm : A.makeNative UR_COMMAND_ENQUEUE_NATIVE_EXP hQueue s w2 = (Outcome.ok e, w3))
      (ht : A.start e w3 = (Outcome.ok UR_RESULT_SUCCESS, w4))
      (hc : pfn hQueue data w4 = (Outcome.thrown x, w5)) :
      Path A hQueue pfn data n wl w (some old)
        { result := handlers A x, phEvent := some old,
          trace := [Effect.bindContext (A.getDevice hQueue) none,
                    Effect.selectStream hQueue n wl (Outcome.ok s),
                    Effect.makeNative UR_COMMAND_ENQUEUE_NATIVE_EXP hQueue s (Outcome.ok e),
                    Effect.start e (Outcome.ok UR_RESULT_SUCCESS),
                    Effect.callback hQueue data (Outcome.thrown x),
                    Effect.delete e,
                    Effect.releaseStream s,
                    Effect.restoreContext w.current],
          world := { A.ScopedStreamDtor s (A.eventDtor e w5) with current := w.current } }
  | recordFails (old : ur_event_handle_t) (s : CUstream) (e : ur_event_handle_t)
      (r : Outcome ur_result_t) (x : Thrown) (w2 w3 w4 w5 w6 : World)
      (hb : A.bindFailure (A.getDevice hQueue) w = none)
      (hs : A.ScopedStream hQueue n wl
              { w with current := A.getNativeContext (A.getDevice hQueue) }
            = (Outcome.ok s, w2))
      (hm : A.makeNative UR_COMMAND_ENQUEUE_NATIVE_EXP hQueue s w2 = (Outcome.ok e, w3))
      (ht : A.start e w3 = (Outcome.ok UR_RESULT_SUCCESS, w4))
      (hc : pfn hQueue data w4 = (Outcome.ok (), w5))
      (hr : A.record e w5 = (r, w6))
      (hx : checkedFailure r = some x) :
      Path A hQueue pfn data n wl w (some old)
        { result := handlers A x, phEvent := some old,
          trace := [Effect.bindContext (A.getDevice hQueue) none,
                    Effect.selectStream hQueue n wl (Outcome.ok s),
                    Effect.makeNative UR_COMMAND_ENQUEUE_NATIVE_EXP hQueue s (Outcome.ok e),
                    Effect.start e (Outcome.ok UR_RESULT_SUCCESS),
                    Effect.callback hQueue data (Outcome.ok ()),
                    Effect.record e r,
                    Effect.delete e,
                    Effect.releaseStream s,
                    Effect.restoreContext w.current],
          world := { A.ScopedStreamDtor s (A.eventDtor e w6) with current := w.current } }
  | recorded (old : ur_event_handle_t) (s : CUstream) (e : ur_event_handle_t)
      (w2 w3 w4 w5 w6 : World)
      (hb : A.bindFailure (A.getDevice hQueue) w = none)
      (hs : A.ScopedStream hQueue n wl
              { w with current := A.getNativeContext (A.getDevice hQueue) }
            = (Outcome.ok s, w2))
      (hm : A.makeNative UR_COMMAND_ENQUEUE_NATIVE_EXP hQueue s w2 = (Outcome.ok e, w3))
      (ht : A.start e w3 = (Outcome.ok UR_RESULT_SUCCESS, w4))
      (hc : pfn hQueue data w4 = (Outcome.ok (), w5))
      (hr : A.record e w5 = (Outcome.ok UR_RESULT_SUCCESS, w6)) :
      Path A hQueue pfn data n wl w (some old)
        { result := Completion.returned UR_RESULT_SUCCESS, phEvent := some e,
          trace := [Effect.bindContext (A.getDevice hQueue) none,
                    Effect.selectStream hQueue n wl (Outcome.ok s),
                    Effect.makeNative UR_COMMAND_ENQUEUE_NATIVE_EXP hQueue s (Outcome.ok e),
                    Effect.start e (Outcome.ok UR_RESULT_SUCCESS),
                    Effect.callback hQueue data (Outcome.ok ()),
                    Effect.record e (Outcome.ok UR_RESULT_SUCCESS),
                    Effect.store e,
                    Effect.releaseStream s,
                    Effect.restoreContext w.current],
          world := { A.ScopedStreamDtor s w6 with current := w.current } }
  | plainCallbackFails (s : CUstream) (x : Thrown) (w2 w5 : World)
      (hb : A.bindFailure (A.getDevice hQueue) w = none)
      (hs : A.ScopedStream hQueue n wl
              { w with current := A.getNativeContext (A.getDevice hQueue) }
            = (Outcome.ok s, w2))
      (hc : pfn hQueue data w2 = (Outcome.thrown x, w5)) :
      Path A hQueue pfn data n wl w none
        { result := handlers A x, phEvent := none,
          trace := [Effect.bindContext (A.getDevice hQueue) none,
                    Effect.selectStream hQueue n wl (Outcome.ok s),
                    Effect.callback hQueue data (Outcome.thrown x),
                    Effect.releaseStream s,
                    Effect.restoreContext w.current],
          world := { A.ScopedStreamDtor s w5 with current := w.current } }
  | plainDone (s : CUstream) (w2 w5 : World)
      (hb : A.bindFailure (A.getDevice hQueue) w = none)
      (hs : A.ScopedStream hQueue n wl
              { w with current := A.getNativeContext (A.getDevice hQueue) }
            = (Outcome.ok s, w2))
      (hc : pfn hQueue data w2 = (Outcome.ok (), w5)) :
      Path A hQueue pfn data n wl w none
        { result := Completion.returned UR_RESULT_SUCCESS, phEvent := none,
          trace := [Effect.bindContext (A.getDevice hQueue) none,
                    Effect.selectStream hQueue n wl (Outcome.ok s),
                    Effect.callback hQueue data (Outcome.ok ()),
                    Effect.releaseStream s,
                    Effect.restoreContext w.current],
          world := { A.ScopedStreamDtor s w5 with current := w.current } }

/-! ## Counting in the log -/

/-- The step is the successful creation of an event. -/
def Effect.isCreate : Effect → Bool
  | Effect.makeNative _ _ _ (Outcome.ok _) => true
  | _ => false

/-- The step is a call of `start()`. -/
def Effect.isStart : Effect → Bool
  | Effect.start _ _ => true
  | _ => false

/-- The step is a call of `record()`. -/
def Effect.isRecord : Effect → Bool
  | Effect.record _ _ => true
  | _ => false

/-- The step is the deletion of an event. -/
def Effect.isDelete : Effect → Bool
  | Effect.delete _ => true
  | _ => false

/-- The step hands an event to `*phEvent`. -/
def Effect.isStore : Effect → Bool
  | Effect.store _ => true
  | _ => false

/-- The step is one of those before the callback: context binding, stream
selection, event creation, `start()`. -/
def Effect.isBeforeCallback : Effect → Bool
  | Effect.bindContext _ _ => true
  | Effect.selectStream _ _ _ _ => true
  | Effect.makeNative _ _ _ _ => true
  | Effect.start _ _ => true
  | _ => false

/-- The step is one of those after the creation of the event: `start()`, the
callback, `record()`. -/
def Effect.isAfterCreate : Effect → Bool
  | Effect.start _ _ => true
  | Effect.callback _ _ _ => true
  | Effect.record _ _ => true
  | _ => false

/-! ## Sample collaborators -/

/-- An adapter on which every step succeeds; `mapErrorUR` maps the native
code 0 to success, as a translator of CUDA codes does. -/
def sampleAdapter : Adapter where
  getDevice q := q + 100
  getNativeContext d := d + 1000
  bindFailure _ _ := none
  ScopedStream q _ _ w := (Outcome.ok (q + 7), w)
  ScopedStreamDtor _ w := w
  makeNative _ _ s w := (Outcome.ok (s + 1), { w with driver := w.driver + 1 })
  start _ w := (Outcome.ok UR_RESULT_SUCCESS, w)
  record _ w := (Outcome.ok UR_RESULT_SUCCESS, w)
  eventDtor _ w := w
  mapErrorUR c := if c = 0 then UR_RESULT_SUCCESS else UR_RESULT_ERROR_CODE c

/-- The sample adapter with a `makeNative` that throws `x`. -/
def sampleAdapterNoEvent (x : Thrown) : Adapter :=
  { sampleAdapter with makeNative := fun _ _ _ w => (Outcome.thrown x, w) }

/-- A callback that returns, after making another context current. -/
def sampleCallback : ur_exp_enqueue_native_command_function_t :=
  fun _ data w => (Outcome.ok (), { current := data, driver := w.driver + 1 })

/-- A callback that throws `x`, after making another context current. -/
def throwingCallback (x : Thrown) : ur_exp_enqueue_native_command_function_t :=
  fun _ data w => (Outcome.thrown x, { current := data, driver := w.driver + 1 })

/-! ## The event-info query -/

/-- The info selectors named in the conformance test; every other value of the
enumeration is `UR_EVENT_INFO_CODE n`. -/
inductive ur_event_info_t where
  | UR_EVENT_INFO_COMMAND_QUEUE
  | UR_EVENT_INFO_CONTEXT
  | UR_EVENT_INFO_COMMAND_TYPE
  | UR_EVENT_INFO_COMMAND_EXECUTION_STATUS
  | UR_EVENT_INFO_REFERENCE_COUNT
  | UR_EVENT_INFO_FORCE_UINT32
  | UR_EVENT_INFO_CODE (n : Nat)
  deriving DecidableEq, Repr

open ur_event_info_t

/-- The five selectors an event answers (the values of `UUR_TEST_SUITE_P` in
the conformance test). -/
def ur_event_info_t.supported : ur_event_info_t → Bool
  | UR_EVENT_INFO_COMMAND_QUEUE => true
  | UR_EVENT_INFO_CONTEXT => true
  | UR_EVENT_INFO_COMMAND_TYPE => true
  | UR_EVENT_INFO_COMMAND_EXECUTION_STATUS => true
  | UR_EVENT_INFO_REFERENCE_COUNT => true
  | _ => false

/-- Modelled from the spec: the buffer/size mismatch of the event-info query.
"passing a buffer/size mismatch (e.g., a null output buffer together with a
null size-output pointer) is an invalid-value error"; the conformance test
`InvalidValue` has the other shape, an output buffer given with size 0. -/
def bufferSizeMismatch (propSize : Nat) (pPropValue pPropSizeRet : Option Nat) : Bool :=
  (pPropValue.isNone && pPropSizeRet.isNone) || (pPropValue.isSome && propSize == 0)

/-- Modelled from the spec: the validation of `urEventGetInfo`, whose code is not
among the sources (only its conformance test is). "Null `event` is
invalid-null-handle" ("for every selector"); "Unsupported `info_selector` is
invalid-enumeration"; a buffer/size mismatch "is invalid-value". A pointer
is `none` when null. What the query does with a well-formed call is the
argument `answer`. -/
def urEventGetInfo (answer : ur_event_handle_t → ur_event_info_t → Nat → ur_result_t)
    (hEvent : Option ur_event_handle_t) (propName : ur_event_info_t) (propSize : Nat)
    (pPropValue pPropSizeRet : Option Nat) : ur_result_t :=
  match hEvent with
  | none => UR_RESULT_ERROR_INVALID_NULL_HANDLE
  | some ev =>
    if propName.supported = false then UR_RESULT_ERROR_INVALID_ENUMERATION
    else if bufferSizeMismatch propSize pPropValue pPropSizeRet then UR_RESULT_ERROR_INVALID_VALUE
    else answer ev propName propSize

/-! ## Every run follows one of the paths -/

theorem checkedFailure_eq_none (r : Outcome ur_result_t) (h : checkedFailure r = none) :
    r = Outcome.ok UR_RESULT_SUCCESS := by
  cases r with
  | thrown x => simp [checkedFailure] at h
  | ok c =>
    by_cases hc : c = UR_RESULT_SUCCESS
    · rw [hc]
    · simp [checkedFailure, hc] at h

theorem checkedFailure_success :
    checkedFailure (Outcome.ok UR_RESULT_SUCCESS) = none := by
  simp [checkedFailure]

theorem handlers_returns (A : Adapter) (x : Thrown) (h : ∀ t, x ≠ Thrown.foreign t) :
    ∃ r, handlers A x = Completion.returned r := by
  cases x with
  | ur Err => exact ⟨Err, rfl⟩
  | cu CuErr => exact ⟨A.mapErrorUR CuErr, rfl⟩
  | foreign t => exact absurd rfl (h t)

theorem urEnqueueNativeCommandExp_path (A : Adapter) (hQueue : ur_queue_handle_t)
    (pfn : ur_exp_enqueue_native_command_function_t) (data : Nat) (props : Option Nat)
    (n : Nat) (wl : Option (List ur_event_handle_t)) (phEvent : Option ur_event_handle_t)
    (w : World) :
    Path A hQueue pfn data n wl w phEvent
      (urEnqueueNativeCommandExp A hQueue pfn data props n wl phEvent w) := by
  rcases hb : A.bindFailure (A.getDevice hQueue) w with _ | x
  swap
  · convert @Path.bindFails A hQueue pfn data n wl w phEvent x hb using 1
    simp [urEnqueueNativeCommandExp, tryBlock, Exec.bind, ScopedContext.ctor, hb, catchBoundary]
  rcases hs : A.ScopedStream hQueue n wl
      { w with current := A.getNativeContext (A.getDevice hQueue) } with ⟨s | x, w2⟩
  swap
  · convert @Path.streamFails A hQueue pfn data n wl w phEvent x w2 hb hs using 1
    simp [urEnqueueNativeCommandExp, tryBlock, Exec.bind, Exec.scope, Exec.call,
      ScopedContext.ctor, ScopedContext.dtor, ScopedStream.ctor, hb, hs, catchBoundary]
  cases phEvent with
  | none =>
    rcases hc : pfn hQueue data w2 with ⟨_ | x, w5⟩
    · convert Path.plainDone s w2 w5 hb hs hc using 1
      simp [urEnqueueNativeCommandExp, tryBlock, Exec.bind, Exec.scope, Exec.call, Exec.pure,
        ScopedContext.ctor, ScopedContext.dtor, ScopedStream.ctor, ScopedStream.dtor,
        RetImplEvent.assign, RetImplEvent.dtor, callNativeEnqueue, hb, hs, hc, catchBoundary]
    · convert Path.plainCallbackFails s x w2 w5 hb hs hc using 1
      simp [urEnqueueNativeCommandExp, tryBlock, Exec.bind, Exec.scope, Exec.call, Exec.pure,
        ScopedContext.ctor, ScopedContext.dtor, ScopedStream.ctor, ScopedStream.dtor,
        RetImplEvent.assign, RetImplEvent.dtor, callNativeEnqueue, hb, hs, hc, catchBoundary]
  | some old =>
    rcases hm : A.makeNative UR_COMMAND_ENQUEUE_NATIVE_EXP hQueue s w2 with ⟨e | x, w3⟩
    swap
    · convert @Path.makeNativeFails A hQueue pfn data n wl w old s x w2 w3 hb hs hm using 1
      simp [urEnqueueNativeCommandExp, tryBlock, Exec.bind, Exec.scope, Exec.call, Exec.pure,
        Exec.throw, ScopedContext.ctor, ScopedContext.dtor, ScopedStream.ctor, ScopedStream.dtor,
        RetImplEvent.assign, RetImplEvent.dtor, RetImplEvent.arrow, makeNative, start, record,
        UR_CHECK_ERROR, callNativeEnqueue, storeRelease, catchBoundary, hb, hs, hm]
    rcases ht : A.start e w3 with ⟨r, w4⟩
    rcases hx : checkedFailure r with _ | x
    swap
    · convert @Path.startFails A hQueue pfn data n wl w old s e r x w2 w3 w4 hb hs hm ht hx
        using 1
      cases r with
      | thrown y =>
        simp only [checkedFailure, Option.some.injEq] at hx
        subst hx
        simp [urEnqueueNativeCommandExp, tryBlock, Exec.bind, Exec.scope, Exec.call, Exec.pure,
        Exec.throw, ScopedContext.ctor, ScopedContext.dtor, ScopedStream.ctor, ScopedStream.dtor,
        RetImplEvent.assign, RetImplEvent.dtor, RetImplEvent.arrow, makeNative, start, record,
        UR_CHECK_ERROR, callNativeEnqueue, storeRelease, catchBoundary, hb, hs, hm, ht]
      | ok c =>
        by_cases hcs : c = UR_RESULT_SUCCESS
        · simp [checkedFailure, hcs] at hx
        · simp only [checkedFailure, hcs, if_false, Option.some.injEq] at hx
          subst hx
          simp [urEnqueueNativeCommandExp, tryBlock, Exec.bind, Exec.scope, Exec.call, Exec.pure,
        Exec.throw, ScopedContext.ctor, ScopedContext.dtor, ScopedStream.ctor, ScopedStream.dtor,
        RetImplEvent.assign, RetImplEvent.dtor, RetImplEvent.arrow, makeNative, start, record,
        UR_CHECK_ERROR, callNativeEnqueue, storeRelease, catchBoundary, hb, hs, hm, ht, hcs]
    have hr0 := checkedFailure_eq_none r hx
    subst hr0
    rcases hc : pfn hQueue data w4 with ⟨_ | x, w5⟩
    swap
    · convert Path.callbackFails old s e x w2 w3 w4 w5 hb hs hm ht hc using 1
      simp [urEnqueueNativeCommandExp, tryBlock, Exec.bind, Exec.scope, Exec.call, Exec.pure,
        Exec.throw, ScopedContext.ctor, ScopedContext.dtor, ScopedStream.ctor, ScopedStream.dtor,
        RetImplEvent.assign, RetImplEvent.dtor, RetImplEvent.arrow, makeNative, start, record,
        UR_CHECK_ERROR, callNativeEnqueue, storeRelease, catchBoundary, hb, hs, hm, ht, hc]
    rcases hr : A.record e w5 with ⟨r, w6⟩
    rcases hy : checkedFailure r with _ | x
    swap
    · convert Path.recordFails old s e r x w2 w3 w4 w5 w6 hb hs hm ht hc hr hy using 1
      cases r with
      | thrown y =>
        simp only [checkedFailure, Option.some.injEq] at hy
        subst hy
        simp [urEnqueueNativeCommandExp, tryBlock, Exec.bind, Exec.scope, Exec.call, Exec.pure,
        Exec.throw, ScopedContext.ctor, ScopedContext.dtor, ScopedStream.ctor, ScopedStream.dtor,
        RetImplEvent.assign, RetImplEvent.dtor, RetImplEvent.arrow, makeNative, start, record,
        UR_CHECK_ERROR, callNativeEnqueue, storeRelease, catchBoundary, hb, hs, hm, ht, hc, hr]
      | ok c =>
        by_cases hcs : c = UR_RESULT_SUCCESS
        · simp [checkedFailure, hcs] at hy
        · simp only [checkedFailure, hcs, if_false, Option.some.injEq] at hy
          subst hy
          simp [urEnqueueNativeCommandExp, tryBlock, Exec.bind, Exec.scope, Exec.call, Exec.pure,
        Exec.throw, ScopedContext.ctor, ScopedContext.dtor, ScopedStream.ctor, ScopedStream.dtor,
        RetImplEvent.assign, RetImplEvent.dtor, RetImplEvent.arrow, makeNative, start, record,
        UR_CHECK_ERROR, callNativeEnqueue, storeRelease, catchBoundary, hb, hs, hm, ht, hc, hr, hcs]
    have hr1 := checkedFailure_eq_none r hy
    subst hr1
    convert Path.recorded old s e w2 w3 w4 w5 w6 hb hs hm ht hc hr using 1
    simp [urEnqueueNativeCommandExp, tryBlock, Exec.bind, Exec.scope, Exec.call, Exec.pure,
        Exec.throw, ScopedContext.ctor, ScopedContext.dtor, ScopedStream.ctor, ScopedStream.dtor,
        RetImplEvent.assign, RetImplEvent.dtor, RetImplEvent.arrow, makeNative, start, record,
        UR_CHECK_ERROR, callNativeEnqueue, storeRelease, catchBoundary, hb, hs, hm, ht, hc, hr]

/-! ## The out-parameter -/

/-- C1: with a non-null `phEvent`, a call that does not return
`UR_RESULT_SUCCESS` (whichever step failed) leaves `*phEvent` holding the
value it held before the call. -/
theorem phEvent_unchanged_on_failure (A : Adapter) (hQueue : ur_queue_handle_t)
    (pfn : ur_exp_enqueue_native_command_function_t) (data : Nat) (props : Option Nat)
    (n : Nat) (wl : Option (List ur_event_handle_t)) (old : ur_event_handle_t) (w : World)
    (h : (urEnqueueNativeCommandExp A hQueue pfn data props n wl (some old) w).result
          ≠ Completion.returned UR_RESULT_SUCCESS) :
    (urEnqueueNativeCommandExp A hQueue pfn data props n wl (some old) w).phEvent
      = some old := by
  have hp := urEnqueueNativeCommandExp_path A hQueue pfn data props n wl (some old) w
  generalize urEnqueueNativeCommandExp A hQueue pfn data props n wl (some old) w = R at hp h
  cases hp <;> simp_all

/-- A call whose callback throws the unified code 7 returns that code, not
success, and `*phEvent` still holds 99. -/
theorem phEvent_unchanged_on_failure_witness :
    (urEnqueueNativeCommandExp sampleAdapter 1
        (throwingCallback (Thrown.ur (UR_RESULT_ERROR_CODE 7))) 5 none 0 none (some 99)
        { current := 3, driver := 0 }).result = Completion.returned (UR_RESULT_ERROR_CODE 7)
    ∧ (urEnqueueNativeCommandExp sampleAdapter 1
        (throwingCallback (Thrown.ur (UR_RESULT_ERROR_CODE 7))) 5 none 0 none (some 99)
        { current := 3, driver := 0 }).phEvent = some 99 :=
  ⟨by decide, phEvent_unchanged_on_failure sampleAdapter 1
      (throwingCallback (Thrown.ur (UR_RESULT_ERROR_CODE 7))) 5 none 0 none 99
      { current := 3, driver := 0 } (by decide)⟩

/-! ## The context guard -/

/-- C9: whatever the call does and however it ends, the native context current
on the calling thread after the call is the one that was current before it. -/
theorem current_context_restored (A : Adapter) (hQueue : ur_queue_handle_t)
    (pfn : ur_exp_enqueue_native_command_function_t) (data : Nat) (props : Option Nat)
    (n : Nat) (wl : Option (List ur_event_handle_t)) (phEvent : Option ur_event_handle_t)
    (w : World) :
    (urEnqueueNativeCommandExp A hQueue pfn data props n wl phEvent w).world.current
      = w.current := by
  have hp := urEnqueueNativeCommandExp_path A hQueue pfn data props n wl phEvent w
  generalize urEnqueueNativeCommandExp A hQueue pfn data props n wl phEvent w = R at hp
  cases hp <;> rfl

/-! ## What a returned success means -/

/-- C2, as stated, fails: a callback that throws the `ur_result_t` value
`UR_RESULT_SUCCESS`, or a `CUresult` that `mapErrorUR` maps to it, makes the
call return `UR_RESULT_SUCCESS` although the callback did not run to
completion, `record()` was never called, and `*phEvent` still holds its old
value 99. -/
theorem success_returned_without_record :
    ((urEnqueueNativeCommandExp sampleAdapter 1 (throwingCallback (Thrown.ur UR_RESULT_SUCCESS))
        5 none 0 none (some 99) { current := 3, driver := 0 }).result
        = Completion.returned UR_RESULT_SUCCESS
      ∧ Effect.callback 1 5 (Outcome.ok ()) ∉
        (urEnqueueNativeCommandExp sampleAdapter 1 (throwingCallback (Thrown.ur UR_RESULT_SUCCESS))
          5 none 0 none (some 99) { current := 3, driver := 0 }).trace
      ∧ (urEnqueueNativeCommandExp sampleAdapter 1
          (throwingCallback (Thrown.ur UR_RESULT_SUCCESS))
          5 none 0 none (some 99) { current := 3, driver := 0 }).trace.filter Effect.isRecord = []
      ∧ (urEnqueueNativeCommandExp sampleAdapter 1
          (throwingCallback (Thrown.ur UR_RESULT_SUCCESS))
          5 none 0 none (some 99) { current := 3, driver := 0 }).phEvent = some 99)
    ∧ ((urEnqueueNativeCommandExp sampleAdapter 1 (throwingCallback (Thrown.cu 0))
        5 none 0 none (some 99) { current := 3, driver := 0 }).result
        = Completion.returned UR_RESULT_SUCCESS
      ∧ Effect.callback 1 5 (Outcome.ok ()) ∉
        (urEnqueueNativeCommandExp sampleAdapter 1 (throwingCallback (Thrown.cu 0))
          5 none 0 none (some 99) { current := 3, driver := 0 }).trace
      ∧ (urEnqueueNativeCommandExp sampleAdapter 1 (throwingCallback (Thrown.cu 0))
          5 none 0 none (some 99) { current := 3, driver := 0 }).trace.filter Effect.isRecord = []
      ∧ (urEnqueueNativeCommandExp sampleAdapter 1 (throwingCallback (Thrown.cu 0))
          5 none 0 none (some 99) { current := 3, driver := 0 }).phEvent = some 99) := by
  decide

/-- C2, amended: with a non-null `phEvent`, if the call returns
`UR_RESULT_SUCCESS` and no step raised a value that the handlers turn into
`UR_RESULT_SUCCESS`, then the callback has run to completion, the event
created for this call has been recorded, and `*phEvent` holds that event. -/
theorem success_means_recorded (A : Adapter) (hQueue : ur_queue_handle_t)
    (pfn : ur_exp_enqueue_native_command_function_t) (data : Nat) (props : Option Nat)
    (n : Nat) (wl : Option (List ur_event_handle_t)) (old : ur_event_handle_t) (w : World)
    (h : (urEnqueueNativeCommandExp A hQueue pfn data props n wl (some old) w).result
          = Completion.returned UR_RESULT_SUCCESS)
    (hno : ∀ eff ∈ (urEnqueueNativeCommandExp A hQueue pfn data props n wl (some old) w).trace,
      ∀ x, eff.raised = some x → handlers A x ≠ Completion.returned UR_RESULT_SUCCESS) :
    Effect.callback hQueue data (Outcome.ok ()) ∈
      (urEnqueueNativeCommandExp A hQueue pfn data props n wl (some old) w).trace
    ∧ ∃ s e,
        Effect.makeNative UR_COMMAND_ENQUEUE_NATIVE_EXP hQueue s (Outcome.ok e) ∈
          (urEnqueueNativeCommandExp A hQueue pfn data props n wl (some old) w).trace
        ∧ Effect.record e (Outcome.ok UR_RESULT_SUCCESS) ∈
          (urEnqueueNativeCommandExp A hQueue pfn data props n wl (some old) w).trace
        ∧ (urEnqueueNativeCommandExp A hQueue pfn data props n wl (some old) w).phEvent
          = some e := by
  have hp := urEnqueueNativeCommandExp_path A hQueue pfn data props n wl (some old) w
  generalize urEnqueueNativeCommandExp A hQueue pfn data props n wl (some old) w = R at hp h hno
  cases hp with
  | bindFails _ x hb =>
    exact absurd h (hno _ (List.mem_singleton.2 rfl) x rfl)
  | streamFails _ x w2 hb hs =>
    exact absurd h (hno (Effect.selectStream hQueue n wl (Outcome.thrown x)) (by simp) x rfl)
  | makeNativeFails _ s x w2 w3 hb hs hm =>
    exact absurd h (hno (Effect.makeNative UR_COMMAND_ENQUEUE_NATIVE_EXP hQueue s
      (Outcome.thrown x)) (by simp) x rfl)
  | startFails _ s e r x w2 w3 w4 hb hs hm ht hx =>
    exact absurd h (hno (Effect.start e r) (by simp) x hx)
  | callbackFails _ s e x w2 w3 w4 w5 hb hs hm ht hc =>
    exact absurd h (hno (Effect.callback hQueue data (Outcome.thrown x)) (by simp) x rfl)
  | recordFails _ s e r x w2 w3 w4 w5 w6 hb hs hm ht hc hr hx =>
    exact absurd h (hno (Effect.record e r) (by simp) x hx)
  | recorded _ s e w2 w3 w4 w5 w6 hb hs hm ht hc hr =>
    exact ⟨by simp, s, e, by simp, by simp, rfl⟩

/-- On the sample adapter with a returning callback the call returns success,
no step raised anything, and the event 9 it created was recorded and stored. -/
theorem success_means_recorded_witness :
    Effect.callback 1 5 (Outcome.ok ()) ∈
      (urEnqueueNativeCommandExp sampleAdapter 1 sampleCallback 5 none 0 none (some 99)
        { current := 3, driver := 0 }).trace
    ∧ ∃ s e,
        Effect.makeNative UR_COMMAND_ENQUEUE_NATIVE_EXP 1 s (Outcome.ok e) ∈
          (urEnqueueNativeCommandExp sampleAdapter 1 sampleCallback 5 none 0 none (some 99)
            { current := 3, driver := 0 }).trace
        ∧ Effect.record e (Outcome.ok UR_RESULT_SUCCESS) ∈
          (urEnqueueNativeCommandExp sampleAdapter 1 sampleCallback 5 none 0 none (some 99)
            { current := 3, driver := 0 }).trace
        ∧ (urEnqueueNativeCommandExp sampleAdapter 1 sampleCallback 5 none 0 none (some 99)
            { current := 3, driver := 0 }).phEvent = some e :=
  success_means_recorded sampleAdapter 1 sampleCallback 5 none 0 none 99
    { current := 3, driver := 0 } (by decide) (by decide)

/-! ## Failures before the callback -/

/-- C4, as stated, fails: when `makeNative` throws a value that is neither a
`ur_result_t` nor a `CUresult`, the callback is not invoked, but the call
returns no result code: the exception leaves the function. -/
theorem foreign_failure_before_callback_not_returned :
    Effect.makeNative UR_COMMAND_ENQUEUE_NATIVE_EXP 1 8 (Outcome.thrown (Thrown.foreign 0)) ∈
      (urEnqueueNativeCommandExp (sampleAdapterNoEvent (Thrown.foreign 0)) 1 sampleCallback
        5 none 0 none (some 99) { current := 3, driver := 0 }).trace
    ∧ (urEnqueueNativeCommandExp (sampleAdapterNoEvent (Thrown.foreign 0)) 1 sampleCallback
        5 none 0 none (some 99) { current := 3, driver := 0 }).result
      = Completion.propagated (Thrown.foreign 0) := by
  decide

/-- C4, amended: if context binding, stream selection, event creation or
`start()` fails, the callback is never invoked, and the call ends as its
handlers decide for the raised value: it returns `Err` for a `ur_result_t`
`Err`, it returns `mapErrorUR(CuErr)` for a `CUresult` `CuErr`, and a value of
any other type leaves the function as an exception. -/
theorem failure_before_callback (A : Adapter) (hQueue : ur_queue_handle_t)
    (pfn : ur_exp_enqueue_native_command_function_t) (data : Nat) (props : Option Nat)
    (n : Nat) (wl : Option (List ur_event_handle_t)) (phEvent : Option ur_event_handle_t)
    (w : World) (eff : Effect) (x : Thrown)
    (hmem : eff ∈ (urEnqueueNativeCommandExp A hQueue pfn data props n wl phEvent w).trace)
    (hpre : eff.isBeforeCallback = true)
    (hx : eff.raised = some x) :
    (∀ q d r, Effect.callback q d r ∉
        (urEnqueueNativeCommandExp A hQueue pfn data props n wl phEvent w).trace)
    ∧ (∀ Err, x = Thrown.ur Err →
        (urEnqueueNativeCommandExp A hQueue pfn data props n wl phEvent w).result
          = Completion.returned Err)
    ∧ (∀ CuErr, x = Thrown.cu CuErr →
        (urEnqueueNativeCommandExp A hQueue pfn data props n wl phEvent w).result
          = Completion.returned (A.mapErrorUR CuErr))
    ∧ (∀ t, x = Thrown.foreign t →
        (urEnqueueNativeCommandExp A hQueue pfn data props n wl phEvent w).result
          = Completion.propagated (Thrown.foreign t)) := by
  have hp := urEnqueueNativeCommandExp_path A hQueue pfn data props n wl phEvent w
  revert hx hpre
  revert x
  revert hmem
  revert eff
  generalize urEnqueueNativeCommandExp A hQueue pfn data props n wl phEvent w = R at hp
  cases hp <;>
    simp only [List.forall_mem_cons, List.not_mem_nil, false_imp_iff, implies_true, and_true] <;>
    simp_all [Effect.raised, Effect.isBeforeCallback, Outcome.failure, handlers,
      checkedFailure_success]

/-- When `makeNative` throws the native code 4, the callback is not invoked and
the call returns the translation of 4. -/
theorem failure_before_callback_witness :
    Effect.makeNative UR_COMMAND_ENQUEUE_NATIVE_EXP 1 8 (Outcome.thrown (Thrown.cu 4)) ∈
      (urEnqueueNativeCommandExp (sampleAdapterNoEvent (Thrown.cu 4)) 1 sampleCallback
        5 none 0 none (some 99) { current := 3, driver := 0 }).trace
    ∧ (∀ q d r, Effect.callback q d r ∉
        (urEnqueueNativeCommandExp (sampleAdapterNoEvent (Thrown.cu 4)) 1 sampleCallback
          5 none 0 none (some 99) { current := 3, driver := 0 }).trace)
    ∧ (urEnqueueNativeCommandExp (sampleAdapterNoEvent (Thrown.cu 4)) 1 sampleCallback
        5 none 0 none (some 99) { current := 3, driver := 0 }).result
      = Completion.returned (UR_RESULT_ERROR_CODE 4) :=
  have h := failure_before_callback (sampleAdapterNoEvent (Thrown.cu 4)) 1 sampleCallback
    5 none 0 none (some 99) { current := 3, driver := 0 }
    (Effect.makeNative UR_COMMAND_ENQUEUE_NATIVE_EXP 1 8 (Outcome.thrown (Thrown.cu 4)))
    (Thrown.cu 4) (by decide) (by decide) (by decide)
  ⟨by decide, h.1, h.2.2.1 4 rfl⟩

/-! ## The catch boundary -/

/-- C5: a `ur_result_t` value raised by any step of the call, the callback
included, is returned by the call unchanged; a `CUresult` value raised by any
step is returned as its image under `mapErrorUR`. -/
theorem catch_boundary_keeps_domains_apart (A : Adapter) (hQueue : ur_queue_handle_t)
    (pfn : ur_exp_enqueue_native_command_function_t) (data : Nat) (props : Option Nat)
    (n : Nat) (wl : Option (List ur_event_handle_t)) (phEvent : Option ur_event_handle_t)
    (w : World) (eff : Effect)
    (hmem : eff ∈ (urEnqueueNativeCommandExp A hQueue pfn data props n wl phEvent w).trace) :
    (∀ Err, eff.raised = some (Thrown.ur Err) →
        (urEnqueueNativeCommandExp A hQueue pfn data props n wl phEvent w).result
          = Completion.returned Err)
    ∧ (∀ CuErr, eff.raised = some (Thrown.cu CuErr) →
        (urEnqueueNativeCommandExp A hQueue pfn data props n wl phEvent w).result
          = Completion.returned (A.mapErrorUR CuErr)) := by
  have hp := urEnqueueNativeCommandExp_path A hQueue pfn data props n wl phEvent w
  revert hmem
  revert eff
  generalize urEnqueueNativeCommandExp A hQueue pfn data props n wl phEvent w = R at hp
  cases hp <;>
    simp only [List.forall_mem_cons, List.not_mem_nil, false_imp_iff, implies_true, and_true] <;>
    simp_all [Effect.raised, Outcome.failure, handlers, checkedFailure_success]

/-- A callback that throws the native code 4 makes the call return the
translation of 4; a `record()` that reports the unified code 7 would make it
return 7. -/
theorem catch_boundary_keeps_domains_apart_witness :
    Effect.callback 1 5 (Outcome.thrown (Thrown.cu 4)) ∈
      (urEnqueueNativeCommandExp sampleAdapter 1 (throwingCallback (Thrown.cu 4))
        5 none 0 none (some 99) { current := 3, driver := 0 }).trace
    ∧ (urEnqueueNativeCommandExp sampleAdapter 1 (throwingCallback (Thrown.cu 4))
        5 none 0 none (some 99) { current := 3, driver := 0 }).result
      = Completion.returned (UR_RESULT_ERROR_CODE 4) :=
  ⟨by decide,
   (catch_boundary_keeps_domains_apart sampleAdapter 1 (throwingCallback (Thrown.cu 4))
      5 none 0 none (some 99) { current := 3, driver := 0 }
      (Effect.callback 1 5 (Outcome.thrown (Thrown.cu 4))) (by decide)).2 4 rfl⟩

/-! ## Exceptions at the public boundary -/

/-- C6, as stated, fails: a callback that throws a value that is neither a
`ur_result_t` nor a `CUresult` meets no handler; the call returns no result
code, the exception crosses the public boundary. -/
theorem foreign_exception_crosses_boundary :
    (urEnqueueNativeCommandExp sampleAdapter 1 (throwingCallback (Thrown.foreign 0))
        5 none 0 none (some 99) { current := 3, driver := 0 }).result
      = Completion.propagated (Thrown.foreign 0)
    ∧ ¬ ∃ r, (urEnqueueNativeCommandExp sampleAdapter 1 (throwingCallback (Thrown.foreign 0))
        5 none 0 none (some 99) { current := 3, driver := 0 }).result
      = Completion.returned r := by
  have h : (urEnqueueNativeCommandExp sampleAdapter 1 (throwingCallback (Thrown.foreign 0))
        5 none 0 none (some 99) { current := 3, driver := 0 }).result
      = Completion.propagated (Thrown.foreign 0) := by decide
  refine ⟨h, ?_⟩
  rintro ⟨r, hr⟩
  rw [h] at hr
  exact Completion.noConfusion hr

/-- C6, amended: for every input, if no step of the call (context binding,
stream selection, event creation, `start()`, the callback, `record()`) raises
a value of a type other than `ur_result_t` and `CUresult`, the call ends by
returning a `ur_result_t` result code. -/
theorem returns_result_code (A : Adapter) (hQueue : ur_queue_handle_t)
    (pfn : ur_exp_enqueue_native_command_function_t) (data : Nat) (props : Option Nat)
    (n : Nat) (wl : Option (List ur_event_handle_t)) (phEvent : Option ur_event_handle_t)
    (w : World)
    (hno : ∀ eff ∈ (urEnqueueNativeCommandExp A hQueue pfn data props n wl phEvent w).trace,
      ∀ t, eff.raised ≠ some (Thrown.foreign t)) :
    ∃ r, (urEnqueueNativeCommandExp A hQueue pfn data props n wl phEvent w).result
      = Completion.returned r := by
  have hp := urEnqueueNativeCommandExp_path A hQueue pfn data props n wl phEvent w
  revert hno
  generalize urEnqueueNativeCommandExp A hQueue pfn data props n wl phEvent w = R at hp
  cases hp <;>
    simp only [List.forall_mem_cons, List.not_mem_nil, false_imp_iff, implies_true, and_true] <;>
    intro hno <;>
    first
      | exact ⟨_, rfl⟩
      | (apply handlers_returns
         intro t ht
         subst ht
         simp_all [Effect.raised, Outcome.failure])

/-- A callback that throws the unified code 7 raises nothing of a foreign
type, and the call returns a result code. -/
theorem returns_result_code_witness :
    ∃ r, (urEnqueueNativeCommandExp sampleAdapter 1
        (throwingCallback (Thrown.ur (UR_RESULT_ERROR_CODE 7)))
        5 none 0 none (some 99) { current := 3, driver := 0 }).result
      = Completion.returned r :=
  returns_result_code sampleAdapter 1 (throwingCallback (Thrown.ur (UR_RESULT_ERROR_CODE 7)))
    5 none 0 none (some 99) { current := 3, driver := 0 }
    (fun eff hmem t => by
      have h : ∀ eff ∈ (urEnqueueNativeCommandExp sampleAdapter 1
          (throwingCallback (Thrown.ur (UR_RESULT_ERROR_CODE 7)))
          5 none 0 none (some 99) { current := 3, driver := 0 }).trace,
          eff.raised = none ∨ eff.raised = some (Thrown.ur (UR_RESULT_ERROR_CODE 7)) := by
        decide
      rcases h eff hmem with h1 | h1 <;> rw [h1] <;> simp)

/-! ## The order of the steps -/

/-- C3: when an out-event is requested, the step right before the invocation
of the callback is the `start()` of the event, completed with success; the
step right before a `record()` is the callback, returned; `record()` is only
called on an event whose `start()` succeeded; and `start()` and `record()` are
each called at most once. -/
theorem event_steps_ordered (A : Adapter) (hQueue : ur_queue_handle_t)
    (pfn : ur_exp_enqueue_native_command_function_t) (data : Nat) (props : Option Nat)
    (n : Nat) (wl : Option (List ur_event_handle_t)) (old : ur_event_handle_t) (w : World) :
    (∀ i q d r, (urEnqueueNativeCommandExp A hQueue pfn data props n wl (some old) w).trace[i]? = some (Effect.callback q d r) →
        ∃ e, 0 < i ∧ (urEnqueueNativeCommandExp A hQueue pfn data props n wl (some old) w).trace[i - 1]? = some (Effect.start e (Outcome.ok UR_RESULT_SUCCESS)))
    ∧ (∀ i e r, (urEnqueueNativeCommandExp A hQueue pfn data props n wl (some old) w).trace[i]? = some (Effect.record e r) →
        0 < i ∧ (urEnqueueNativeCommandExp A hQueue pfn data props n wl (some old) w).trace[i - 1]? = some (Effect.callback hQueue data (Outcome.ok ())))
    ∧ (∀ e r, Effect.record e r ∈ (urEnqueueNativeCommandExp A hQueue pfn data props n wl (some old) w).trace →
        Effect.start e (Outcome.ok UR_RESULT_SUCCESS) ∈ (urEnqueueNativeCommandExp A hQueue pfn data props n wl (some old) w).trace)
    ∧ ((urEnqueueNativeCommandExp A hQueue pfn data props n wl (some old) w).trace.filter Effect.isStart).length ≤ 1
    ∧ ((urEnqueueNativeCommandExp A hQueue pfn data props n wl (some old) w).trace.filter Effect.isRecord).length ≤ 1 := by
  have hp := urEnqueueNativeCommandExp_path A hQueue pfn data props n wl (some old) w
  generalize urEnqueueNativeCommandExp A hQueue pfn data props n wl (some old) w = R at hp
  cases hp <;>
    refine ⟨?_, ?_, ?_, ?_, ?_⟩ <;>
    first
      | (intro i q d r h
         rcases i with _ | _ | _ | _ | _ | _ | _ | _ | _ | i <;> simp_all)
      | (intro i e r h
         rcases i with _ | _ | _ | _ | _ | _ | _ | _ | _ | i <;> simp_all)
      | simp [Effect.isStart, Effect.isRecord]

/-- On the sample adapter the callback is the step at position 4 of the log,
and the step at position 3 is the successful `start()` of the event. -/
theorem event_steps_ordered_witness :
    ∃ e, 0 < 4 ∧ (urEnqueueNativeCommandExp sampleAdapter 1 sampleCallback 5 none 0 none (some 99)
        { current := 3, driver := 0 }).trace[4 - 1]? = some (Effect.start e (Outcome.ok UR_RESULT_SUCCESS)) :=
  (event_steps_ordered sampleAdapter 1 sampleCallback 5 none 0 none 99
    { current := 3, driver := 0 }).1 4 1 5 (Outcome.ok ()) (by decide)

/-! ## Ownership of the created event -/

/-- C7: when the call has created an event `e`: if a later step (`start()`, the
callback, `record()`) fails, the call deletes `e` exactly once, deletes
nothing else, hands nothing to the caller and leaves `*phEvent` as it was; if
no step fails, the call deletes nothing and hands `e`, once, to `*phEvent`.
In both cases one event was created, and every created event is either
deleted or handed over: the call keeps none. -/
theorem created_event_released_or_handed_over (A : Adapter) (hQueue : ur_queue_handle_t)
    (pfn : ur_exp_enqueue_native_command_function_t) (data : Nat) (props : Option Nat)
    (n : Nat) (wl : Option (List ur_event_handle_t)) (old : ur_event_handle_t) (w : World)
    (k : ur_command_t) (q : ur_queue_handle_t) (s : CUstream) (e : ur_event_handle_t)
    (hmk : Effect.makeNative k q s (Outcome.ok e) ∈ (urEnqueueNativeCommandExp A hQueue pfn data props n wl (some old) w).trace) :
    ((∃ eff ∈ (urEnqueueNativeCommandExp A hQueue pfn data props n wl (some old) w).trace, eff.isAfterCreate = true ∧ eff.raised ≠ none) →
        (urEnqueueNativeCommandExp A hQueue pfn data props n wl (some old) w).trace.filter Effect.isDelete = [Effect.delete e]
        ∧ (urEnqueueNativeCommandExp A hQueue pfn data props n wl (some old) w).trace.filter Effect.isStore = []
        ∧ (urEnqueueNativeCommandExp A hQueue pfn data props n wl (some old) w).phEvent = some old)
    ∧ ((∀ eff ∈ (urEnqueueNativeCommandExp A hQueue pfn data props n wl (some old) w).trace, eff.raised = none) →
        (urEnqueueNativeCommandExp A hQueue pfn data props n wl (some old) w).trace.filter Effect.isDelete = []
        ∧ (urEnqueueNativeCommandExp A hQueue pfn data props n wl (some old) w).trace.filter Effect.isStore = [Effect.store e]
        ∧ (urEnqueueNativeCommandExp A hQueue pfn data props n wl (some old) w).phEvent = some e)
    ∧ ((urEnqueueNativeCommandExp A hQueue pfn data props n wl (some old) w).trace.filter Effect.isCreate).length = 1
    ∧ ((urEnqueueNativeCommandExp A hQueue pfn data props n wl (some old) w).trace.filter Effect.isCreate).length
        = ((urEnqueueNativeCommandExp A hQueue pfn data props n wl (some old) w).trace.filter Effect.isDelete).length + ((urEnqueueNativeCommandExp A hQueue pfn data props n wl (some old) w).trace.filter Effect.isStore).length := by
  have hp := urEnqueueNativeCommandExp_path A hQueue pfn data props n wl (some old) w
  revert hmk
  generalize urEnqueueNativeCommandExp A hQueue pfn data props n wl (some old) w = R at hp
  cases hp <;>
    simp_all [Effect.isDelete, Effect.isStore, Effect.isCreate, Effect.isAfterCreate,
      Effect.raised, Outcome.failure, checkedFailure_success]

/-- With a callback that throws, the created event 9 is deleted once and
`*phEvent` keeps 99; with a callback that returns, nothing is deleted and
event 9 is handed to `*phEvent`. -/
theorem created_event_released_or_handed_over_witness :
    ((urEnqueueNativeCommandExp sampleAdapter 1
        (throwingCallback (Thrown.cu 4)) 5 none 0 none (some 99) { current := 3, driver := 0 }).trace.filter Effect.isDelete = [Effect.delete 9]
      ∧ (urEnqueueNativeCommandExp sampleAdapter 1
        (throwingCallback (Thrown.cu 4)) 5 none 0 none (some 99) { current := 3, driver := 0 }).trace.filter Effect.isStore = []
      ∧ (urEnqueueNativeCommandExp sampleAdapter 1
        (throwingCallback (Thrown.cu 4)) 5 none 0 none (some 99) { current := 3, driver := 0 }).phEvent = some 99)
    ∧ ((urEnqueueNativeCommandExp sampleAdapter 1 sampleCallback 5 none 0 none (some 99)
        { current := 3, driver := 0 }).trace.filter Effect.isDelete = []
      ∧ (urEnqueueNativeCommandExp sampleAdapter 1 sampleCallback 5 none 0 none (some 99)
        { current := 3, driver := 0 }).trace.filter Effect.isStore = [Effect.store 9]
      ∧ (urEnqueueNativeCommandExp sampleAdapter 1 sampleCallback 5 none 0 none (some 99)
        { current := 3, driver := 0 }).phEvent = some 9) :=
  ⟨(created_event_released_or_handed_over sampleAdapter 1 (throwingCallback (Thrown.cu 4))
      5 none 0 none 99 { current := 3, driver := 0 } UR_COMMAND_ENQUEUE_NATIVE_EXP 1 8 9
      (by decide)).1
      ⟨Effect.callback 1 5 (Outcome.thrown (Thrown.cu 4)), by decide, by decide, by decide⟩,
   (created_event_released_or_handed_over sampleAdapter 1 sampleCallback
      5 none 0 none 99 { current := 3, driver := 0 } UR_COMMAND_ENQUEUE_NATIVE_EXP 1 8 9
      (by decide)).2.1 (by decide)⟩

/-! ## Where the returned event comes from -/

/-- C8, as stated, fails: when `makeNative` throws the `ur_result_t` value
`UR_RESULT_SUCCESS`, the call with a non-null `phEvent` returns
`UR_RESULT_SUCCESS`, yet no event was created, nothing was handed to
`*phEvent` (it still holds its old value 99), and the callback was not
invoked at all. -/
theorem success_without_event_or_callback :
    (urEnqueueNativeCommandExp (sampleAdapterNoEvent (Thrown.ur UR_RESULT_SUCCESS)) 1
        sampleCallback 5 none 0 none (some 99) { current := 3, driver := 0 }).result = Completion.returned UR_RESULT_SUCCESS
    ∧ (urEnqueueNativeCommandExp (sampleAdapterNoEvent (Thrown.ur UR_RESULT_SUCCESS)) 1
        sampleCallback 5 none 0 none (some 99) { current := 3, driver := 0 }).phEvent = some 99
    ∧ (urEnqueueNativeCommandExp (sampleAdapterNoEvent (Thrown.ur UR_RESULT_SUCCESS)) 1
        sampleCallback 5 none 0 none (some 99) { current := 3, driver := 0 }).trace.filter Effect.isCreate = []
    ∧ (urEnqueueNativeCommandExp (sampleAdapterNoEvent (Thrown.ur UR_RESULT_SUCCESS)) 1
        sampleCallback 5 none 0 none (some 99) { current := 3, driver := 0 }).trace.filter Effect.isStore = []
    ∧ Effect.callback 1 5 (Outcome.ok ()) ∉ (urEnqueueNativeCommandExp (sampleAdapterNoEvent (Thrown.ur UR_RESULT_SUCCESS)) 1
        sampleCallback 5 none 0 none (some 99) { current := 3, driver := 0 }).trace
    ∧ (urEnqueueNativeCommandExp (sampleAdapterNoEvent (Thrown.ur UR_RESULT_SUCCESS)) 1
        sampleCallback 5 none 0 none (some 99) { current := 3, driver := 0 }).trace =
        [Effect.bindContext 101 none,
         Effect.selectStream 1 0 none (Outcome.ok 8),
         Effect.makeNative UR_COMMAND_ENQUEUE_NATIVE_EXP 1 8
           (Outcome.thrown (Thrown.ur UR_RESULT_SUCCESS)),
         Effect.releaseStream 8,
         Effect.restoreContext 3] := by
  decide

/-- C8, amended: when a call with a non-null `phEvent` returns
`UR_RESULT_SUCCESS` and no step raised a value that the handlers turn into
`UR_RESULT_SUCCESS`, then the call has handed an event `e` to `*phEvent`,
which holds it; the stream selector, called with this call's `hQueue`,
`NumEventsInWaitList` and `phEventWaitList`, chose a stream `s`; `e` is the
result of `makeNative` called with `UR_COMMAND_ENQUEUE_NATIVE_EXP`, `hQueue`
and `s`, and `makeNative` was called with nothing else; the callback was
invoked, with `hQueue` and `data`, it returned, and it was invoked with
nothing else. -/
theorem returned_event_provenance (A : Adapter) (hQueue : ur_queue_handle_t)
    (pfn : ur_exp_enqueue_native_command_function_t) (data : Nat) (props : Option Nat)
    (n : Nat) (wl : Option (List ur_event_handle_t)) (old : ur_event_handle_t) (w : World)
    (hs : (urEnqueueNativeCommandExp A hQueue pfn data props n wl (some old) w).result = Completion.returned UR_RESULT_SUCCESS)
    (hno : ∀ eff ∈ (urEnqueueNativeCommandExp A hQueue pfn data props n wl (some old) w).trace,
      ∀ x, eff.raised = some x → handlers A x ≠ Completion.returned UR_RESULT_SUCCESS) :
    ∃ e s,
      (urEnqueueNativeCommandExp A hQueue pfn data props n wl (some old) w).phEvent = some e
      ∧ Effect.store e ∈ (urEnqueueNativeCommandExp A hQueue pfn data props n wl (some old) w).trace
      ∧ (A.ScopedStream hQueue n wl
          { w with current := A.getNativeContext (A.getDevice hQueue) }).1 = Outcome.ok s
      ∧ Effect.selectStream hQueue n wl (Outcome.ok s) ∈ (urEnqueueNativeCommandExp A hQueue pfn data props n wl (some old) w).trace
      ∧ Effect.makeNative UR_COMMAND_ENQUEUE_NATIVE_EXP hQueue s (Outcome.ok e) ∈ (urEnqueueNativeCommandExp A hQueue pfn data props n wl (some old) w).trace
      ∧ (∀ k q s1 r, Effect.makeNative k q s1 r ∈ (urEnqueueNativeCommandExp A hQueue pfn data props n wl (some old) w).trace →
          k = UR_COMMAND_ENQUEUE_NATIVE_EXP ∧ q = hQueue ∧ s1 = s ∧ r = Outcome.ok e)
      ∧ Effect.callback hQueue data (Outcome.ok ()) ∈ (urEnqueueNativeCommandExp A hQueue pfn data props n wl (some old) w).trace
      ∧ ∀ q d r, Effect.callback q d r ∈ (urEnqueueNativeCommandExp A hQueue pfn data props n wl (some old) w).trace →
          q = hQueue ∧ d = data ∧ r = Outcome.ok () := by
  have hp := urEnqueueNativeCommandExp_path A hQueue pfn data props n wl (some old) w
  generalize urEnqueueNativeCommandExp A hQueue pfn data props n wl (some old) w = R
    at hp hs hno
  cases hp with
  | bindFails _ x hb =>
    exact absurd hs (hno _ (List.mem_singleton.2 rfl) x rfl)
  | streamFails _ x w2 hb hs1 =>
    exact absurd hs (hno (Effect.selectStream hQueue n wl (Outcome.thrown x)) (by simp) x rfl)
  | makeNativeFails _ s x w2 w3 hb hs1 hm =>
    exact absurd hs (hno (Effect.makeNative UR_COMMAND_ENQUEUE_NATIVE_EXP hQueue s
      (Outcome.thrown x)) (by simp) x rfl)
  | startFails _ s e r x w2 w3 w4 hb hs1 hm ht hx =>
    exact absurd hs (hno (Effect.start e r) (by simp) x hx)
  | callbackFails _ s e x w2 w3 w4 w5 hb hs1 hm ht hc =>
    exact absurd hs (hno (Effect.callback hQueue data (Outcome.thrown x)) (by simp) x rfl)
  | recordFails _ s e r x w2 w3 w4 w5 w6 hb hs1 hm ht hc hr hx =>
    exact absurd hs (hno (Effect.record e r) (by simp) x hx)
  | recorded _ s e w2 w3 w4 w5 w6 hb hs1 hm ht hc hr =>
    refine ⟨e, s, rfl, by simp, by simp [hs1], by simp, by simp, ?_, by simp, ?_⟩
    · intro k q s1 r h
      simp at h
      exact h
    · intro q d r h
      simp at h
      exact h

/-- On the sample adapter the call returns success, no step raised anything,
and the call hands over an event created for queue 1 on the stream the
selector chose for queue 1, after invoking the callback with queue 1 and the
data 5. -/
theorem returned_event_provenance_witness :
    ∃ e s,
      (urEnqueueNativeCommandExp sampleAdapter 1 sampleCallback 5 none 0 none (some 99)
        { current := 3, driver := 0 }).phEvent = some e
      ∧ Effect.store e ∈ (urEnqueueNativeCommandExp sampleAdapter 1 sampleCallback 5 none 0 none (some 99)
        { current := 3, driver := 0 }).trace
      ∧ (sampleAdapter.ScopedStream 1 0 none
          { ({ current := 3, driver := 0 } : World) with
            current := sampleAdapter.getNativeContext (sampleAdapter.getDevice 1) }).1
          = Outcome.ok s
      ∧ Effect.selectStream 1 0 none (Outcome.ok s) ∈ (urEnqueueNativeCommandExp sampleAdapter 1 sampleCallback 5 none 0 none (some 99)
        { current := 3, driver := 0 }).trace
      ∧ Effect.makeNative UR_COMMAND_ENQUEUE_NATIVE_EXP 1 s (Outcome.ok e) ∈ (urEnqueueNativeCommandExp sampleAdapter 1 sampleCallback 5 none 0 none (some 99)
        { current := 3, driver := 0 }).trace
      ∧ (∀ k q s1 r, Effect.makeNative k q s1 r ∈ (urEnqueueNativeCommandExp sampleAdapter 1 sampleCallback 5 none 0 none (some 99)
        { current := 3, driver := 0 }).trace →
          k = UR_COMMAND_ENQUEUE_NATIVE_EXP ∧ q = 1 ∧ s1 = s ∧ r = Outcome.ok e)
      ∧ Effect.callback 1 5 (Outcome.ok ()) ∈ (urEnqueueNativeCommandExp sampleAdapter 1 sampleCallback 5 none 0 none (some 99)
        { current := 3, driver := 0 }).trace
      ∧ ∀ q d r, Effect.callback q d r ∈ (urEnqueueNativeCommandExp sampleAdapter 1 sampleCallback 5 none 0 none (some 99)
        { current := 3, driver := 0 }).trace → q = 1 ∧ d = 5 ∧ r = Outcome.ok () :=
  returned_event_provenance sampleAdapter 1 sampleCallback 5 none 0 none 99
    { current := 3, driver := 0 } (by decide) (by decide)

/-! ## Usage errors of the event-info query -/

/-- C10: the event-info query reports its three usage errors with three codes.
A null event handle gives `UR_RESULT_ERROR_INVALID_NULL_HANDLE` for every
selector; a valid event with an out-of-range selector (such as
`UR_EVENT_INFO_FORCE_UINT32`) gives `UR_RESULT_ERROR_INVALID_ENUMERATION`; a
valid event with a supported selector and a buffer/size mismatch (an output
buffer with size 0 and no size-output pointer; no output buffer and no
size-output pointer) gives `UR_RESULT_ERROR_INVALID_VALUE`; the three codes
differ from each other and from success. -/
theorem urEventGetInfo_usage_errors
    (answer : ur_event_handle_t → ur_event_info_t → Nat → ur_result_t)
    (ev : ur_event_handle_t) (anyName outOfRange supportedName : ur_event_info_t)
    (propSize buffer : Nat) (pPropValue pPropSizeRet : Option Nat)
    (hout : outOfRange.supported = false) (hsup : supportedName.supported = true) :
    urEventGetInfo answer none anyName propSize pPropValue pPropSizeRet
      = UR_RESULT_ERROR_INVALID_NULL_HANDLE
    ∧ urEventGetInfo answer (some ev) outOfRange propSize pPropValue pPropSizeRet
      = UR_RESULT_ERROR_INVALID_ENUMERATION
    ∧ urEventGetInfo answer (some ev) UR_EVENT_INFO_FORCE_UINT32 propSize pPropValue pPropSizeRet
      = UR_RESULT_ERROR_INVALID_ENUMERATION
    ∧ urEventGetInfo answer (some ev) supportedName 0 (some buffer) none
      = UR_RESULT_ERROR_INVALID_VALUE
    ∧ urEventGetInfo answer (some ev) supportedName propSize none none
      = UR_RESULT_ERROR_INVALID_VALUE
    ∧ UR_RESULT_ERROR_INVALID_NULL_HANDLE ≠ UR_RESULT_ERROR_INVALID_ENUMERATION
    ∧ UR_RESULT_ERROR_INVALID_NULL_HANDLE ≠ UR_RESULT_ERROR_INVALID_VALUE
    ∧ UR_RESULT_ERROR_INVALID_ENUMERATION ≠ UR_RESULT_ERROR_INVALID_VALUE
    ∧ UR_RESULT_ERROR_INVALID_NULL_HANDLE ≠ UR_RESULT_SUCCESS
    ∧ UR_RESULT_ERROR_INVALID_ENUMERATION ≠ UR_RESULT_SUCCESS
    ∧ UR_RESULT_ERROR_INVALID_VALUE ≠ UR_RESULT_SUCCESS := by
  refine ⟨rfl, ?_, rfl, ?_, ?_, ?_, ?_, ?_, ?_, ?_, ?_⟩
  · simp [urEventGetInfo, hout]
  · simp [urEventGetInfo, hsup, bufferSizeMismatch]
  · simp [urEventGetInfo, hsup, bufferSizeMismatch]
  all_goals exact fun h => ur_result_t.noConfusion h

/-- The three calls of the negative conformance tests, and the shape named in
the specification, on an event 1 whose query would otherwise succeed. -/
theorem urEventGetInfo_usage_errors_witness :
    urEventGetInfo (fun _ _ _ => UR_RESULT_SUCCESS) none UR_EVENT_INFO_COMMAND_QUEUE 0 none (some 0)
      = UR_RESULT_ERROR_INVALID_NULL_HANDLE
    ∧ urEventGetInfo (fun _ _ _ => UR_RESULT_SUCCESS) (some 1) UR_EVENT_INFO_FORCE_UINT32 0 none
        (some 0) = UR_RESULT_ERROR_INVALID_ENUMERATION
    ∧ urEventGetInfo (fun _ _ _ => UR_RESULT_SUCCESS) (some 1) UR_EVENT_INFO_COMMAND_QUEUE 0
        (some 2) none = UR_RESULT_ERROR_INVALID_VALUE
    ∧ urEventGetInfo (fun _ _ _ => UR_RESULT_SUCCESS) (some 1) UR_EVENT_INFO_COMMAND_QUEUE 0
        none none = UR_RESULT_ERROR_INVALID_VALUE :=
  have h := urEventGetInfo_usage_errors (fun _ _ _ => UR_RESULT_SUCCESS) 1
    UR_EVENT_INFO_COMMAND_QUEUE UR_EVENT_INFO_FORCE_UINT32 UR_EVENT_INFO_COMMAND_QUEUE 0 2
    none (some 0) (by decide) (by decide)
  ⟨h.1, h.2.1, h.2.2.2.1, h.2.2.2.2.1⟩

end UnifiedRuntime
